import Mathlib

/-!
Verification of the deployment-strategy notebook (`section_4/Deployment Types.ipynb`),
the epsilon-greedy comparison function in `section_4/metrics_comparisons.ipynb`,
and the YAML configuration example of `section_1/lesson_9`.

The FastAPI handlers are embedded as pure functions.  Calls into external
libraries (the two scikit-learn models, `np.array(...).reshape`) are abstracted
as fallible functions `InputData → Except String Int`: an `Except.error e`
models a raised Python exception whose `str` is `e`.  The `random.random()`
draws are explicit rational parameters, and the global bandit counters are an
explicit state record threaded through `predict_bandit`.
-/

/-- A JSON value as produced by the notebook handlers (only ints and strings occur). -/
inductive JsonVal where
  | int : Int → JsonVal
  | str : String → JsonVal
  deriving DecidableEq, Repr

/-- A JSON object: the dict literal a handler returns. -/
abbrev Json := List (String × JsonVal)

/-- Outcome of one handler call: either a JSON body, or an `HTTPException`
with a status code and a detail string. -/
inductive HandlerResult where
  | ok : Json → HandlerResult
  | httpError : Nat → String → HandlerResult
  deriving DecidableEq, Repr

/-- The pydantic request model: `class InputData(BaseModel): features: list`. -/
structure InputData where
  features : List ℚ
  deriving DecidableEq, Repr

/-- The status code of a handler result, when it is an error. -/
def statusOf : HandlerResult → Option Nat
  | .ok _ => none
  | .httpError s _ => some s

/-- The `"prediction"` field of a successful handler result. -/
def predictionOf : HandlerResult → Option Int
  | .ok js =>
    match js.lookup "prediction" with
    | some (.int i) => some i
    | _ => none
  | .httpError _ _ => none

/-- The `"model_used"` field of a successful handler result. -/
def modelUsedOf : HandlerResult → Option String
  | .ok js =>
    match js.lookup "model_used" with
    | some (.str s) => some s
    | _ => none
  | .httpError _ _ => none

/-- `predict_single`: predict with the single loaded model (the new model),
return `{"prediction": int(prediction)}`, and turn any exception into
`HTTPException(status_code=400, detail=str(e))`. -/
def predict_single (model : InputData → Except String Int) (data : InputData) :
    HandlerResult :=
  match model data with
  | .ok p => .ok [("prediction", .int p)]
  | .error e => .httpError 400 e

/-- `predict_silent`: compute the current model's prediction, then the new
model's prediction (for logging only), and return only
`{"prediction": int(current_prediction)}`; any exception becomes a 400. -/
def predict_silent (current_model new_model : InputData → Except String Int)
    (data : InputData) : HandlerResult :=
  match current_model data with
  | .error e => .httpError 400 e
  | .ok current_prediction =>
    match new_model data with
    | .error e => .httpError 400 e
    | .ok _new_prediction => .ok [("prediction", .int current_prediction)]

/-- `canary_percentage = 0.1`: 10% of traffic goes to the new model.
(`mkRat 1 10` is the exact rational 1/10.) -/
def canary_percentage : ℚ := mkRat 1 10

/-- `predict_canary`: route the request to the new model when
`random.random() < canary_percentage`, else to the current model, and report
which model served it; any exception becomes a 400.  `r` is the value of the
`random.random()` draw. -/
def predict_canary (current_model new_model : InputData → Except String Int)
    (r : ℚ) (data : InputData) : HandlerResult :=
  if r < canary_percentage then
    match new_model data with
    | .ok p => .ok [("prediction", .int p), ("model_used", .str "new")]
    | .error e => .httpError 400 e
  else
    match current_model data with
    | .ok p => .ok [("prediction", .int p), ("model_used", .str "current")]
    | .error e => .httpError 400 e

/-- The four module-level counters of the multi-armed bandit cell, in their
declaration order. -/
structure BanditState where
  current_model_correct : ℕ
  new_model_correct : ℕ
  current_model_count : ℕ
  new_model_count : ℕ
  deriving DecidableEq, Repr

/-- The initial counter values: all four are initialised to `0`. -/
def initBanditState : BanditState := ⟨0, 0, 0, 0⟩

/-- The names listed in the `global` statement of `predict_bandit` — the
mutable module-level counters the handler updates. -/
def banditGlobals : List String :=
  ["current_model_correct", "new_model_correct", "current_model_count",
   "new_model_count"]

/-- `epsilon = 0.1`: exploration probability of the bandit handler. -/
def epsilon : ℚ := mkRat 1 10

/-- `correct / count if count > 0 else 0`: the guarded success rate used by
both epsilon-greedy exploit branches.  `mkRat correct count` is the exact
rational quotient `correct / count` whenever `count > 0` (the only case in
which this branch is taken); `successRate_eq_div` below records this. -/
def successRate (correct count : ℕ) : ℚ :=
  if count > 0 then mkRat correct count else 0

/-- In the guarded branch, `successRate` is literally the division
`correct / count` the source writes. -/
theorem successRate_eq_div (correct count : ℕ) (h : 0 < count) :
    successRate correct count = (correct : ℚ) / count := by
  simp [successRate, h, Rat.mkRat_eq_div]

/-- The exploit branch of `predict_bandit`:
`use_new_model = new_rate >= current_rate`. -/
def exploitChoice (s : BanditState) : Bool :=
  successRate s.new_model_correct s.new_model_count ≥
    successRate s.current_model_correct s.current_model_count

/-- The three random draws one `predict_bandit` call can consume: the epsilon
draw, the `random.choice([True, False])` outcome for exploration, and the
simulated-feedback draw. -/
structure BanditDraws where
  epsDraw : ℚ
  exploreNew : Bool
  feedbackDraw : ℚ
  deriving DecidableEq, Repr

/-- `use_new_model` as computed by the handler: explore with probability
epsilon, otherwise exploit. -/
def banditChoice (s : BanditState) (d : BanditDraws) : Bool :=
  if d.epsDraw < epsilon then d.exploreNew else exploitChoice s

/-- `predict_bandit`: choose a model via `banditChoice`, predict with it,
increment its count, then — simulating feedback — increment its correct
counter when `random.random() < 0.8`; any exception becomes a 400 and, since
it is raised before the increments, leaves the counters unchanged.  Returns
the updated counter state together with the handler result. -/
def predict_bandit (current_model new_model : InputData → Except String Int)
    (s : BanditState) (d : BanditDraws) (data : InputData) :
    BanditState × HandlerResult :=
  let use_new_model := banditChoice s d
  if use_new_model then
    match new_model data with
    | .error e => (s, .httpError 400 e)
    | .ok p =>
      let s1 := { s with new_model_count := s.new_model_count + 1 }
      let s2 := if d.feedbackDraw < mkRat 8 10 then
          { s1 with new_model_correct := s1.new_model_correct + 1 }
        else s1
      (s2, .ok [("prediction", .int p), ("model_used", .str "new")])
  else
    match current_model data with
    | .error e => (s, .httpError 400 e)
    | .ok p =>
      let s1 := { s with current_model_count := s.current_model_count + 1 }
      let s2 := if d.feedbackDraw < mkRat 8 10 then
          { s1 with current_model_correct := s1.current_model_correct + 1 }
        else s1
      (s2, .ok [("prediction", .int p), ("model_used", .str "current")])

/-- HTTP methods used by the notebook app. -/
inductive Method where
  | get
  | post
  deriving DecidableEq, Repr

/-- A registered route: method and path. -/
structure Route where
  method : Method
  path : String
  deriving DecidableEq, Repr

/-- The routes registered on the FastAPI `app`, in the order the notebook's
decorators declare them. -/
def appRoutes : List Route :=
  [⟨.get, "/"⟩,
   ⟨.post, "/predict/single"⟩,
   ⟨.post, "/predict/silent"⟩,
   ⟨.post, "/predict/canary"⟩,
   ⟨.post, "/predict/bandit"⟩]

/-- The exploit branch of `multi_armed_bandit` in the metrics notebook: the
same guarded rates, then `chosen_model = 'A' if model_a_rate >= model_b_rate
else 'B'`. -/
def multi_armed_bandit_exploit (model_a_correct model_a_count
    model_b_correct model_b_count : ℕ) : String :=
  if successRate model_a_correct model_a_count ≥
      successRate model_b_correct model_b_count then "A" else "B"

/-- The arm a handler choice denotes under the correspondence
current model = model A, new model = model B. -/
def handlerArm (use_new_model : Bool) : String :=
  if use_new_model then "B" else "A"

/-- One `/predict/bandit` request: its random draws and its body. -/
structure BanditRequest where
  draws : BanditDraws
  data : InputData
  deriving Repr

/-- Total number of requests recorded by the bandit counters. -/
def banditCountSum (s : BanditState) : ℕ :=
  s.current_model_count + s.new_model_count

/-- Counter sanity: each model's correct counter never exceeds its count. -/
def banditInv (s : BanditState) : Prop :=
  s.current_model_correct ≤ s.current_model_count ∧
    s.new_model_correct ≤ s.new_model_count

instance (s : BanditState) : Decidable (banditInv s) := by
  unfold banditInv; infer_instance

/-- Whether a handler call succeeded (no HTTPException raised). -/
def isOkResult : HandlerResult → Bool
  | .ok _ => true
  | .httpError _ _ => false

/-- Run a sequence of `/predict/bandit` requests sequentially, threading the
global counters. -/
def runBandit (current_model new_model : InputData → Except String Int)
    (s : BanditState) : List BanditRequest → BanditState
  | [] => s
  | req :: rest =>
    runBandit current_model new_model
      (predict_bandit current_model new_model s req.draws req.data).1 rest

/-- Every request of the sequence succeeds when executed sequentially from
state `s`. -/
def allOk (current_model new_model : InputData → Except String Int)
    (s : BanditState) : List BanditRequest → Bool
  | [] => true
  | req :: rest =>
    isOkResult (predict_bandit current_model new_model s req.draws req.data).2 &&
      allOk current_model new_model
        (predict_bandit current_model new_model s req.draws req.data).1 rest

/-- A YAML value as it appears in the lesson's example configuration file:
strings, integers, decimal fractions, and nested mappings. -/
inductive YamlVal where
  | str : String → YamlVal
  | nat : ℕ → YamlVal
  | rat : ℚ → YamlVal
  | map : List (String × YamlVal) → YamlVal

/-- Look a key up in a YAML mapping value. -/
def yamlGet (v : YamlVal) (k : String) : Option YamlVal :=
  match v with
  | .map kvs => kvs.lookup k
  | _ => none

/-- The example `config.yaml` document of lesson 9 (cheat sheet and exercise),
as the mapping `yaml.safe_load` produces from it. -/
def config_yaml : List (String × YamlVal) :=
  [("project_name", .str "my_ml_project"),
   ("experiment", .map
     [("name", .str "baseline_model"),
      ("type", .str "classification")]),
   ("data", .map
     [("source", .str "data/iris.csv"),
      ("validation_split", .rat (mkRat 2 10)),
      ("test_split", .rat (mkRat 1 10))]),
   ("model", .map
     [("type", .str "random_forest"),
      ("hyperparameters", .map
        [("n_estimators", .nat 100),
         ("max_depth", .nat 5),
         ("random_state", .nat 42)])]),
   ("output", .map
     [("model_path", .str "models/"),
      ("logs_path", .str "logs/")])]

/-- `successRate` written with the source's division: `correct / count` when
`count` is positive, `0` otherwise. -/
theorem successRate_eq_ite (correct count : ℕ) :
    successRate correct count =
      if 0 < count then (correct : ℚ) / count else 0 := by
  by_cases h : 0 < count
  · simp [successRate, h, Rat.mkRat_eq_div]
  · simp [successRate, h]

/-- C1: on the exploit branch (`epsilon ≤` the epsilon draw), the bandit
handler selects the new model iff the new model's success rate — `correct /
count` when the count is positive, `0` otherwise — is at least the current
model's success rate. -/
theorem predict_bandit_exploit_selects_new_iff (s : BanditState)
    (d : BanditDraws) (h : epsilon ≤ d.epsDraw) :
    banditChoice s d = true ↔
      (if 0 < s.new_model_count then
          (s.new_model_correct : ℚ) / s.new_model_count else 0) ≥
        (if 0 < s.current_model_count then
          (s.current_model_correct : ℚ) / s.current_model_count else 0) := by
  unfold banditChoice exploitChoice
  rw [if_neg (not_lt.mpr h), ← successRate_eq_ite, ← successRate_eq_ite]
  exact decide_eq_true_iff

/-- C1 witness: the exploit branch at the all-zero initial state with epsilon
draw 1/2 selects the new model, since both rates are 0. -/
theorem predict_bandit_exploit_selects_new_iff_witness :
    epsilon ≤ mkRat 1 2 ∧
      (banditChoice initBanditState ⟨mkRat 1 2, false, 0⟩ = true ↔
        (if 0 < initBanditState.new_model_count then
            (initBanditState.new_model_correct : ℚ) /
              initBanditState.new_model_count else 0) ≥
          (if 0 < initBanditState.current_model_count then
            (initBanditState.current_model_correct : ℚ) /
              initBanditState.current_model_count else 0)) :=
  ⟨by decide,
   predict_bandit_exploit_selects_new_iff initBanditState
     ⟨mkRat 1 2, false, 0⟩ (by decide)⟩

/-- C2 counterexample: the bandit handler's `global` statement lists four
mutable counters, not two. -/
theorem banditGlobals_ne_two : ¬ banditGlobals.length = 2 := by decide

/-- C2 (amended): the mutable state of the epsilon-greedy router consists of
exactly four global counters — a correct/count pair per model — and the
exploit choice genuinely depends on each of the four (flipping any single
coordinate can flip the choice), so no two of them suffice. -/
theorem banditGlobals_four_counters :
    banditGlobals.length = 4 ∧
    exploitChoice ⟨0, 0, 1, 1⟩ ≠ exploitChoice ⟨1, 0, 1, 1⟩ ∧
    exploitChoice ⟨1, 0, 1, 1⟩ ≠ exploitChoice ⟨1, 1, 1, 1⟩ ∧
    exploitChoice ⟨1, 1, 1, 2⟩ ≠ exploitChoice ⟨1, 1, 2, 2⟩ ∧
    exploitChoice ⟨1, 1, 1, 1⟩ ≠ exploitChoice ⟨1, 1, 1, 2⟩ := by
  decide

/-- C9: the success-rate computation is guarded — a zero count yields rate 0
without dividing, a positive count yields the true quotient `correct / count`
— and in the all-zero initial state the exploit branch compares `0 >= 0` and
therefore selects the new model (for any epsilon draw on the exploit side). -/
theorem successRate_guarded_and_initial_exploit :
    (∀ correct : ℕ, successRate correct 0 = 0) ∧
    (∀ correct count : ℕ, 0 < count →
      successRate correct count = (correct : ℚ) / count) ∧
    exploitChoice initBanditState = true ∧
    (∀ d : BanditDraws, epsilon ≤ d.epsDraw →
      banditChoice initBanditState d = true) := by
  refine ⟨fun c => by simp [successRate], fun c n h => successRate_eq_div c n h,
    by decide, fun d h => ?_⟩
  unfold banditChoice
  rw [if_neg (not_lt.mpr h)]
  decide

/-- C9 witness: the guarded rate at count 2 is the quotient 1/2, and the
exploit branch of the initial state with epsilon draw 1/2 selects the new
model. -/
theorem successRate_guarded_and_initial_exploit_witness :
    (0 < 2 ∧ successRate 1 2 = (1 : ℚ) / 2) ∧
    (epsilon ≤ mkRat 1 2 ∧
      banditChoice initBanditState ⟨mkRat 1 2, false, 0⟩ = true) :=
  ⟨⟨by decide, successRate_guarded_and_initial_exploit.2.1 1 2 (by decide)⟩,
   ⟨by decide,
    successRate_guarded_and_initial_exploit.2.2.2 ⟨mkRat 1 2, false, 0⟩
      (by decide)⟩⟩

/-- C10 counterexample: at the all-zero counter history (both rates 0) the
handler's exploit branch selects the new model — arm B under the
correspondence current = A, new = B — while `multi_armed_bandit`'s exploit
branch selects arm A. -/
theorem exploit_tie_mismatch :
    handlerArm (exploitChoice initBanditState) ≠
      multi_armed_bandit_exploit 0 0 0 0 := by
  decide

/-- C10 (amended): whenever the two success rates differ, the handler's
exploit branch and `multi_armed_bandit`'s exploit branch select corresponding
arms (current = A, new = B); they disagree only on ties, where the handler
prefers the new model and the function prefers model A. -/
theorem exploit_agree_of_rate_ne (cc nc ccount ncount : ℕ)
    (h : successRate cc ccount ≠ successRate nc ncount) :
    handlerArm (exploitChoice ⟨cc, nc, ccount, ncount⟩) =
      multi_armed_bandit_exploit cc ccount nc ncount := by
  by_cases hc : successRate nc ncount ≥ successRate cc ccount
  · have hna : ¬ successRate cc ccount ≥ successRate nc ncount :=
      fun hh => h (le_antisymm hc hh)
    simp [handlerArm, exploitChoice, multi_armed_bandit_exploit, hc, hna]
  · have ha : successRate cc ccount ≥ successRate nc ncount := le_of_not_le hc
    simp [handlerArm, exploitChoice, multi_armed_bandit_exploit, hc, ha]

/-- C10 witness: with history current = 1/1 and new = 0/1 the rates differ and
both exploit branches select the current model (arm A). -/
theorem exploit_agree_of_rate_ne_witness :
    successRate 1 1 ≠ successRate 0 1 ∧
      handlerArm (exploitChoice ⟨1, 0, 1, 1⟩) =
        multi_armed_bandit_exploit 1 1 0 1 :=
  ⟨by decide, exploit_agree_of_rate_ne 1 0 1 1 (by decide)⟩

/-- C4: the POST routes registered on the app are exactly the four prediction
routes (besides the GET root), each handler takes an `InputData` body, and on
every successful evaluation the returned JSON object contains an integer
`"prediction"` field. -/
theorem app_post_routes_and_prediction_field :
    (appRoutes.filter (fun r => r.method = Method.post)).map Route.path =
      ["/predict/single", "/predict/silent", "/predict/canary",
       "/predict/bandit"] ∧
    (∀ (model : InputData → Except String Int) (data : InputData) (p : Int),
      model data = .ok p →
        ∃ i, predictionOf (predict_single model data) = some i) ∧
    (∀ (cur new : InputData → Except String Int) (data : InputData)
        (cp np : Int), cur data = .ok cp → new data = .ok np →
        ∃ i, predictionOf (predict_silent cur new data) = some i) ∧
    (∀ (cur new : InputData → Except String Int) (r : ℚ) (data : InputData)
        (cp np : Int), cur data = .ok cp → new data = .ok np →
        ∃ i, predictionOf (predict_canary cur new r data) = some i) ∧
    (∀ (cur new : InputData → Except String Int) (s : BanditState)
        (d : BanditDraws) (data : InputData) (cp np : Int),
      cur data = .ok cp → new data = .ok np →
        ∃ i, predictionOf (predict_bandit cur new s d data).2 = some i) := by
  refine ⟨by decide, ?_, ?_, ?_, ?_⟩
  · intro model data p h
    exact ⟨p, by simp [predict_single, h, predictionOf, List.lookup]⟩
  · intro cur new data cp np h1 h2
    exact ⟨cp, by simp [predict_silent, h1, h2, predictionOf, List.lookup]⟩
  · intro cur new r data cp np h1 h2
    by_cases hr : r < canary_percentage
    · exact ⟨np, by simp [predict_canary, hr, h2, predictionOf, List.lookup]⟩
    · exact ⟨cp, by simp [predict_canary, hr, h1, predictionOf, List.lookup]⟩
  · intro cur new s d data cp np h1 h2
    by_cases hb : banditChoice s d
    · exact ⟨np, by simp [predict_bandit, hb, h2, predictionOf, List.lookup]⟩
    · exact ⟨cp, by simp [predict_bandit, hb, h1, predictionOf, List.lookup]⟩

/-- C4 witness: concrete successful calls of all four handlers, each returning
a JSON object with an integer prediction field. -/
theorem app_post_routes_and_prediction_field_witness :
    (∃ i, predictionOf (predict_single
      (fun _ => Except.ok 7) ⟨[]⟩) = some i) ∧
    (∃ i, predictionOf (predict_silent
      (fun _ => Except.ok 1) (fun _ => Except.ok 2) ⟨[]⟩) = some i) ∧
    (∃ i, predictionOf (predict_canary
      (fun _ => Except.ok 1) (fun _ => Except.ok 2) (mkRat 1 2) ⟨[]⟩)
        = some i) ∧
    (∃ i, predictionOf (predict_bandit
      (fun _ => Except.ok 1) (fun _ => Except.ok 2) initBanditState
        ⟨mkRat 1 2, false, 0⟩ ⟨[]⟩).2 = some i) :=
  ⟨app_post_routes_and_prediction_field.2.1 _ _ 7 rfl,
   app_post_routes_and_prediction_field.2.2.1 _ _ _ 1 2 rfl rfl,
   app_post_routes_and_prediction_field.2.2.2.1 _ _ _ _ 1 2 rfl rfl,
   app_post_routes_and_prediction_field.2.2.2.2 _ _ _ _ _ 1 2 rfl rfl⟩

/-- C5 counterexample: the silent handler never returns the new model's
prediction when it differs from the current model's — the returned prediction
always equals the current model's output. -/
theorem predict_silent_never_new :
    ¬ ∃ cp np : Int, cp ≠ np ∧
      predictionOf (predict_silent (fun _ => Except.ok cp)
        (fun _ => Except.ok np) ⟨[]⟩) = some np := by
  rintro ⟨cp, np, hne, h⟩
  simp [predict_silent, predictionOf, List.lookup] at h
  exact hne h

/-- C5 (amended): the silent handler computes both models' predictions, but
the prediction returned to the caller is always the current model's; the new
model's prediction is only computed for logging. -/
theorem predict_silent_returns_current
    (cur new : InputData → Except String Int) (data : InputData)
    (cp np : Int) (h1 : cur data = .ok cp) (h2 : new data = .ok np) :
    predict_silent cur new data = .ok [("prediction", .int cp)] := by
  simp [predict_silent, h1, h2]

/-- C5 witness: with current prediction 1 and new prediction 2, the silent
handler returns prediction 1. -/
theorem predict_silent_returns_current_witness :
    predict_silent (fun _ => Except.ok 1) (fun _ => Except.ok 2) ⟨[]⟩ =
      .ok [("prediction", .int 1)] :=
  predict_silent_returns_current _ _ ⟨[]⟩ 1 2 rfl rfl

/-- C6: the canary handler routes the request to the new model exactly when
the uniform draw is strictly below `canary_percentage = 0.1`, reporting
`model_used = "new"`, and otherwise to the current model with
`model_used = "current"`. -/
theorem predict_canary_split (cur new : InputData → Except String Int)
    (r : ℚ) (data : InputData) (cp np : Int)
    (h1 : cur data = .ok cp) (h2 : new data = .ok np) :
    predict_canary cur new r data =
      if r < canary_percentage then
        .ok [("prediction", .int np), ("model_used", .str "new")]
      else
        .ok [("prediction", .int cp), ("model_used", .str "current")] := by
  by_cases hr : r < canary_percentage
  · simp [predict_canary, hr, h2]
  · simp [predict_canary, hr, h1]

/-- C6 witness: a draw of 1/2 is not below 0.1, so the canary handler serves
the current model's prediction and reports `model_used = "current"`. -/
theorem predict_canary_split_witness :
    predict_canary (fun _ => Except.ok 1) (fun _ => Except.ok 2)
        (mkRat 1 2) ⟨[]⟩ =
      if mkRat 1 2 < canary_percentage then
        .ok [("prediction", .int 2), ("model_used", .str "new")]
      else
        .ok [("prediction", .int 1), ("model_used", .str "current")] :=
  predict_canary_split _ _ (mkRat 1 2) ⟨[]⟩ 1 2 rfl rfl

/-- C3: every prediction handler wraps its body in a catch-all: a raised
exception becomes an HTTPException with status 400 whose detail is the string
of the exception, the bandit handler's counters are left unchanged by it, and
no handler produces an error result with any status other than 400. -/
theorem handlers_catch_as_http400 :
    (∀ (model : InputData → Except String Int) (data : InputData) (e : String),
      model data = .error e → predict_single model data = .httpError 400 e) ∧
    (∀ (model : InputData → Except String Int) (data : InputData)
        (st : Nat) (msg : String),
      predict_single model data = .httpError st msg → st = 400) ∧
    (∀ (cur new : InputData → Except String Int) (data : InputData)
        (e : String), cur data = .error e →
      predict_silent cur new data = .httpError 400 e) ∧
    (∀ (cur new : InputData → Except String Int) (data : InputData)
        (cp : Int) (e : String), cur data = .ok cp → new data = .error e →
      predict_silent cur new data = .httpError 400 e) ∧
    (∀ (cur new : InputData → Except String Int) (data : InputData)
        (st : Nat) (msg : String),
      predict_silent cur new data = .httpError st msg → st = 400) ∧
    (∀ (cur new : InputData → Except String Int) (r : ℚ) (data : InputData)
        (e : String), r < canary_percentage → new data = .error e →
      predict_canary cur new r data = .httpError 400 e) ∧
    (∀ (cur new : InputData → Except String Int) (r : ℚ) (data : InputData)
        (e : String), ¬ r < canary_percentage → cur data = .error e →
      predict_canary cur new r data = .httpError 400 e) ∧
    (∀ (cur new : InputData → Except String Int) (r : ℚ) (data : InputData)
        (st : Nat) (msg : String),
      predict_canary cur new r data = .httpError st msg → st = 400) ∧
    (∀ (cur new : InputData → Except String Int) (s : BanditState)
        (d : BanditDraws) (data : InputData) (e : String),
      banditChoice s d = true → new data = .error e →
      predict_bandit cur new s d data = (s, .httpError 400 e)) ∧
    (∀ (cur new : InputData → Except String Int) (s : BanditState)
        (d : BanditDraws) (data : InputData) (e : String),
      banditChoice s d = false → cur data = .error e →
      predict_bandit cur new s d data = (s, .httpError 400 e)) ∧
    (∀ (cur new : InputData → Except String Int) (s : BanditState)
        (d : BanditDraws) (data : InputData) (st : Nat) (msg : String),
      (predict_bandit cur new s d data).2 = .httpError st msg → st = 400) := by
  refine ⟨?_, ?_, ?_, ?_, ?_, ?_, ?_, ?_, ?_, ?_, ?_⟩
  · intro model data e h
    simp [predict_single, h]
  · intro model data st msg h
    cases hm : model data with
    | error e => simp [predict_single, hm] at h; exact h.1.symm
    | ok p => simp [predict_single, hm] at h
  · intro cur new data e h
    simp [predict_silent, h]
  · intro cur new data cp e h1 h2
    simp [predict_silent, h1, h2]
  · intro cur new data st msg h
    cases hc : cur data with
    | error e => simp [predict_silent, hc] at h; exact h.1.symm
    | ok cp =>
      cases hn : new data with
      | error e => simp [predict_silent, hc, hn] at h; exact h.1.symm
      | ok np => simp [predict_silent, hc, hn] at h
  · intro cur new r data e hr h
    simp [predict_canary, hr, h]
  · intro cur new r data e hr h
    simp [predict_canary, hr, h]
  · intro cur new r data st msg h
    by_cases hr : r < canary_percentage
    · cases hn : new data with
      | error e => simp [predict_canary, hr, hn] at h; exact h.1.symm
      | ok np => simp [predict_canary, hr, hn] at h
    · cases hc : cur data with
      | error e => simp [predict_canary, hr, hc] at h; exact h.1.symm
      | ok cp => simp [predict_canary, hr, hc] at h
  · intro cur new s d data e hb h
    simp [predict_bandit, hb, h]
  · intro cur new s d data e hb h
    simp [predict_bandit, hb, h]
  · intro cur new s d data st msg h
    cases hb : banditChoice s d
    · cases hc : cur data with
      | error e => simp [predict_bandit, hb, hc] at h; exact h.1.symm
      | ok cp => simp [predict_bandit, hb, hc] at h
    · cases hn : new data with
      | error e => simp [predict_bandit, hb, hn] at h; exact h.1.symm
      | ok np => simp [predict_bandit, hb, hn] at h

/-- C3 witness: a raised exception with message "boom" is reported by each
handler as HTTPException(400, "boom"); the bandit handler leaves its counters
untouched. -/
theorem handlers_catch_as_http400_witness :
    predict_single (fun _ => Except.error "boom") ⟨[]⟩ =
      .httpError 400 "boom" ∧
    predict_silent (fun _ => Except.ok 1) (fun _ => Except.error "boom")
      ⟨[]⟩ = .httpError 400 "boom" ∧
    predict_canary (fun _ => Except.error "boom") (fun _ => Except.ok 2)
      (mkRat 1 2) ⟨[]⟩ = .httpError 400 "boom" ∧
    predict_bandit (fun _ => Except.ok 1) (fun _ => Except.error "boom")
      initBanditState ⟨mkRat 1 2, false, 0⟩ ⟨[]⟩ =
        (initBanditState, .httpError 400 "boom") :=
  ⟨handlers_catch_as_http400.1 _ _ "boom" rfl,
   handlers_catch_as_http400.2.2.2.1 _ _ _ 1 "boom" rfl rfl,
   handlers_catch_as_http400.2.2.2.2.2.2.1 _ _ (mkRat 1 2) _ "boom"
     (by decide) rfl,
   handlers_catch_as_http400.2.2.2.2.2.2.2.2.1 _ _ initBanditState
     ⟨mkRat 1 2, false, 0⟩ _ "boom" (by decide) rfl⟩

/-- C7: the example `config.yaml` has exactly the top-level sections
project_name, experiment, data, model and output, and
`config['experiment']['name']` is the string "baseline_model". -/
theorem config_yaml_sections_and_experiment_name :
    config_yaml.map Prod.fst =
      ["project_name", "experiment", "data", "model", "output"] ∧
    Option.bind (yamlGet (.map config_yaml) "experiment")
      (fun v => yamlGet v "name") = some (.str "baseline_model") := by
  exact ⟨rfl, rfl⟩

/-- One successful `/predict/bandit` request increments the total request
count by exactly one and preserves `correct ≤ count` for both models. -/
theorem banditStep_ok (cur new : InputData → Except String Int)
    (s : BanditState) (d : BanditDraws) (data : InputData)
    (h : isOkResult (predict_bandit cur new s d data).2 = true) :
    banditCountSum (predict_bandit cur new s d data).1 =
      banditCountSum s + 1 ∧
    (banditInv s → banditInv (predict_bandit cur new s d data).1) := by
  cases hb : banditChoice s d
  · cases hc : cur data with
    | error e => simp [predict_bandit, hb, hc, isOkResult] at h
    | ok p =>
      by_cases hf : d.feedbackDraw < mkRat 8 10 <;>
        simp [predict_bandit, hb, hc, hf, banditCountSum, banditInv] <;>
        omega
  · cases hn : new data with
    | error e => simp [predict_bandit, hb, hn, isOkResult] at h
    | ok p =>
      by_cases hf : d.feedbackDraw < mkRat 8 10 <;>
        simp [predict_bandit, hb, hn, hf, banditCountSum, banditInv] <;>
        omega

/-- Running any all-successful request sequence from an invariant-satisfying
state keeps the invariant and adds exactly the sequence length to the total
count. -/
theorem runBandit_ok_aux (cur new : InputData → Except String Int)
    (reqs : List BanditRequest) :
    ∀ s : BanditState, allOk cur new s reqs = true → banditInv s →
      banditInv (runBandit cur new s reqs) ∧
      banditCountSum (runBandit cur new s reqs) =
        banditCountSum s + reqs.length := by
  induction reqs with
  | nil =>
    intro s _ hinv
    simpa [runBandit] using hinv
  | cons req rest ih =>
    intro s hok hinv
    simp only [allOk, Bool.and_eq_true] at hok
    have hstep := banditStep_ok cur new s req.draws req.data hok.1
    have hrec := ih _ hok.2 (hstep.2 hinv)
    simp only [runBandit, List.length_cons]
    refine ⟨hrec.1, ?_⟩
    have e1 := hrec.2
    have e2 := hstep.1
    omega

/-- C8: starting from the all-zero counters, after every sequence of
sequentially executed successful `/predict/bandit` requests each model's
correct counter is at most its count, and the total count equals the number
of requests — each request added exactly one. -/
theorem bandit_run_invariant (cur new : InputData → Except String Int)
    (reqs : List BanditRequest)
    (h : allOk cur new initBanditState reqs = true) :
    banditInv (runBandit cur new initBanditState reqs) ∧
    banditCountSum (runBandit cur new initBanditState reqs) =
      reqs.length := by
  obtain ⟨hi, hs⟩ := runBandit_ok_aux cur new reqs initBanditState h (by decide)
  exact ⟨hi, by simpa [initBanditState, banditCountSum] using hs⟩

/-- Two concrete bandit requests: one exploit draw, one explore draw. -/
def banditWitnessReqs : List BanditRequest :=
  [⟨⟨mkRat 1 2, false, 0⟩, ⟨[]⟩⟩, ⟨⟨0, true, mkRat 1 2⟩, ⟨[]⟩⟩]

/-- C8 witness: both concrete requests succeed, the invariant holds
afterwards, and the total count equals 2. -/
theorem bandit_run_invariant_witness :
    allOk (fun _ => Except.ok 1) (fun _ => Except.ok 2) initBanditState
      banditWitnessReqs = true ∧
    (banditInv (runBandit (fun _ => Except.ok 1) (fun _ => Except.ok 2)
        initBanditState banditWitnessReqs) ∧
      banditCountSum (runBandit (fun _ => Except.ok 1) (fun _ => Except.ok 2)
        initBanditState banditWitnessReqs) = banditWitnessReqs.length) :=
  ⟨by decide, bandit_run_invariant _ _ banditWitnessReqs (by decide)⟩
